import Mathlib

/-!
Shallow embedding of the knowNest backend (`backend/server.py`).

The MongoDB collections (`users`, `user_sessions`, `bookmarks`, `topics`)
are modelled as lists in insertion order; `find_one` is `List.find?`,
`delete_one` is `List.eraseP`, `delete_many` is `List.filter` with the
negated predicate, `update_one` updates the first matching element, and
`insert_one` appends.  Python datetimes are modelled as a wall-clock
integer (seconds) together with an optional timezone offset (`none` is a
naive datetime); `datetime.now(timezone.utc)` is an absolute integer
`now`.  Handlers that can raise are embedded as `Except`-returning
functions; an `HTTPException` is `PyErr.http`, and an exception that the
handler does not catch (and therefore propagates out of it) is
`PyErr.uncaught`.
-/

namespace KnowNest

/-- A Python datetime: wall-clock seconds plus an optional timezone offset
in seconds; `tzOffset = none` models a naive datetime. -/
structure DateTime where
  wall : Int
  tzOffset : Option Int
deriving Repr, DecidableEq

/-- `expires_at.replace(tzinfo=timezone.utc)` applied only when the value is
naive (server.py lines 100-101): a naive timestamp is treated as UTC. -/
def tzNormalize (d : DateTime) : DateTime :=
  match d.tzOffset with
  | none => { d with tzOffset := some 0 }
  | some _ => d

/-- Absolute UTC time of an (aware) datetime: wall clock minus offset. -/
def absTime (d : DateTime) : Int :=
  d.wall - d.tzOffset.getD 0

/-- `users` collection document (server.py lines 137-143). -/
structure User where
  user_id : String
  email : String
  name : String
  picture : String
  created_at : Int
deriving Repr, DecidableEq

/-- `user_sessions` collection document (server.py lines 145-150). -/
structure Session where
  user_id : String
  session_token : String
  expires_at : DateTime
  created_at : Int
deriving Repr, DecidableEq

/-- `bookmarks` collection document (server.py lines 256-261). -/
structure Bookmark where
  bookmark_id : String
  user_id : String
  topic_id : String
  created_at : Int
deriving Repr, DecidableEq

/-- `topics` collection document (see the seed data in server.py). -/
structure Topic where
  topic_id : String
  category_slug : String
  title : String
  description : String
  content : String
  icon : String
  tags : List String
deriving Repr, DecidableEq

/-- The durable store: the four MongoDB collections in insertion order. -/
structure DB where
  users : List User
  user_sessions : List Session
  bookmarks : List Bookmark
  topics : List Topic
deriving Repr, DecidableEq

/-- The parts of an inbound request the auth layer reads: the
`session_token` cookie and the `Authorization` header. -/
structure Request where
  cookie_session_token : Option String
  authorization : Option String
deriving Repr, DecidableEq

/-- Outcome of a handler: an `HTTPException(status, detail)` or an
exception the handler does not catch. -/
inductive PyErr where
  | http (status : Nat) (detail : String)
  | uncaught (msg : String)
deriving Repr, DecidableEq

/-- `str.split(" ")` on the character list: split on every single space,
keeping empty groups (Python semantics). -/
def splitSp : List Char → List (List Char)
  | [] => [[]]
  | c :: cs =>
    let r := splitSp cs
    if c = ' ' then [] :: r
    else
      match r with
      | [] => [[c]]
      | g :: gs => (c :: g) :: gs

/-- Case-insensitive character comparison (used by substring/regex tests). -/
def charIEq (a b : Char) : Bool :=
  a.toLower == b.toLower

/-- `pat` matches at the start of `hay`, character by character. -/
def subFrom : List Char → List Char → Bool
  | [], _ => true
  | _ :: _, [] => false
  | p :: ps, c :: cs => charIEq p c && subFrom ps cs

/-- `pat` matches (case-insensitively) at some position of `hay`. -/
def subAnywhere (pat : List Char) : List Char → Bool
  | [] => subFrom pat []
  | c :: cs => subFrom pat (c :: cs) || subAnywhere pat cs

/-- `s.startswith(pre)` (case-sensitive): executable prefix test. -/
def startsW (pre s : List Char) : Bool :=
  match pre, s with
  | [], _ => true
  | _ :: _, [] => false
  | p :: ps, c :: cs => p == c && startsW ps cs

/-- Token extraction of `get_current_user` (server.py lines 87-93):
the `session_token` cookie first; if absent or empty, the
`Authorization: Bearer ...` header, taking the second space-separated
word (`auth_header.split(" ")[1]`); `none` when the result is falsy. -/
def extractToken (req : Request) : Option String :=
  let cookieTok := req.cookie_session_token.getD ""
  let tok :=
    if cookieTok = "" then
      match req.authorization with
      | some h =>
        if startsW "Bearer ".data h.data then String.mk ((splitSp h.data).getD 1 [])
        else ""
      | none => ""
    else cookieTok
  if tok = "" then none else some tok

/-- The expiry test of `get_current_user` (server.py lines 97-102):
normalize a naive stored timestamp to UTC, then compare with now. -/
def sessionExpired (s : Session) (now : Int) : Bool :=
  absTime (tzNormalize s.expires_at) < now

/-- `get_current_user` (server.py lines 86-105): resolve the presented
session token to the owning user, or `none`. -/
def get_current_user (db : DB) (now : Int) (req : Request) : Option User :=
  match extractToken req with
  | none => none
  | some tok =>
    match db.user_sessions.find? (fun s => s.session_token == tok) with
    | none => none
    | some sd =>
      if sessionExpired sd now then none
      else db.users.find? (fun u => u.user_id == sd.user_id)

/-- `require_auth` (server.py lines 107-111): the guard over
`get_current_user`; raises 401 "Not authenticated" on `None`. -/
def require_auth (db : DB) (now : Int) (req : Request) : Except PyErr User :=
  match get_current_user db now req with
  | none => Except.error (PyErr.http 401 "Not authenticated")
  | some u => Except.ok u

/-- The body returned by the external identity-exchange collaborator
(server.py lines 126-129); `picture` is read with `data.get`. -/
structure ExchangeData where
  email : String
  name : String
  picture : Option String
  session_token : String
deriving Repr, DecidableEq

/-- Outcome of the `httpx` call to the identity-exchange collaborator:
either an HTTP response (any status code), or a transport-level failure,
which in Python raises out of the `await`. -/
inductive ExchangeOutcome where
  | response (status : Nat) (data : ExchangeData)
  | transportError (msg : String)
deriving Repr, DecidableEq

/-- The cookie set by `create_session` (server.py lines 152-160). -/
structure SetCookie where
  key : String
  value : String
  path : String
  secure : Bool
  httponly : Bool
  samesite : String
  max_age : Nat
deriving Repr, DecidableEq

/-- The response body of `create_session` (server.py lines 162-166): the
re-fetched user document (or nothing, when the re-fetch finds none) plus
the raw session token, together with the cookie set on the response. -/
structure SessionResponse where
  user : Option User
  session_token : String
  cookie : SetCookie
deriving Repr, DecidableEq

/-- `db.users.update_one({"email": email}, {"$set": {"name": ..,
"picture": ..}})` (server.py line 134): update the first document whose
email matches, leaving every other field and document unchanged. -/
def updateFirstUser (users : List User) (email name picture : String) : List User :=
  match users with
  | [] => []
  | u :: rest =>
    if u.email == email then { u with name := name, picture := picture } :: rest
    else u :: updateFirstUser rest email name picture

/-- Seven days in seconds: the fixed session lifetime `timedelta(days=7)`. -/
def sevenDays : Int := 7 * 24 * 60 * 60

/-- `create_session` (server.py lines 115-166).  The identity-exchange
call is a parameter (`outcome`); `uuidHex` stands for
`uuid.uuid4().hex[:12]`.  Returns the store after the call together with
the handler's outcome; a transport error of the exchange call is not
caught by the handler, so it surfaces as `PyErr.uncaught`. -/
def create_session (db : DB) (outcome : ExchangeOutcome) (now : Int) (uuidHex : String) :
    DB × Except PyErr SessionResponse :=
  match outcome with
  | ExchangeOutcome.transportError msg => (db, Except.error (PyErr.uncaught msg))
  | ExchangeOutcome.response status data =>
    if status ≠ 200 then (db, Except.error (PyErr.http 401 "Invalid session"))
    else
      let email := data.email
      let name := data.name
      let picture := data.picture.getD ""
      let session_token := data.session_token
      let step : String × List User :=
        match db.users.find? (fun u => u.email == email) with
        | some existing =>
          (existing.user_id, updateFirstUser db.users email name picture)
        | none =>
          let uid := "user_" ++ uuidHex
          (uid, db.users ++ [{ user_id := uid, email := email, name := name,
                               picture := picture, created_at := now }])
      let user_id := step.1
      let users' := step.2
      let newSession : Session :=
        { user_id := user_id, session_token := session_token,
          expires_at := ⟨now + sevenDays, some 0⟩, created_at := now }
      let db' : DB := { db with users := users',
                                user_sessions := db.user_sessions ++ [newSession] }
      let cookie : SetCookie :=
        { key := "session_token", value := session_token, path := "/",
          secure := true, httponly := true, samesite := "none",
          max_age := 7 * 24 * 60 * 60 }
      let user_doc := users'.find? (fun u => u.user_id == user_id)
      (db', Except.ok { user := user_doc, session_token := session_token, cookie := cookie })

/-- `auth_me` (server.py lines 168-173): `get_current_user` plus the same
401 "Not authenticated" rejection as the guard. -/
def auth_me (db : DB) (now : Int) (req : Request) : Except PyErr User :=
  match get_current_user db now req with
  | none => Except.error (PyErr.http 401 "Not authenticated")
  | some u => Except.ok u

/-- The `delete_cookie` call of `logout` (server.py line 180). -/
structure DeleteCookie where
  key : String
  path : String
deriving Repr, DecidableEq

/-- The response of `logout`: the fixed message plus the cleared cookie. -/
structure LogoutResponse where
  message : String
  deleted_cookie : DeleteCookie
deriving Repr, DecidableEq

/-- `logout` (server.py lines 175-181): reads the token from the
`session_token` cookie only; when it is truthy, `delete_many` removes
every session row with that token; the cookie is always cleared and the
handler always succeeds. -/
def logout (db : DB) (req : Request) : DB × LogoutResponse :=
  let tok := req.cookie_session_token.getD ""
  let db' :=
    if tok ≠ "" then
      { db with user_sessions := db.user_sessions.filter (fun s => s.session_token != tok) }
    else db
  (db', { message := "Logged out",
          deleted_cookie := { key := "session_token", path := "/" } })

/-- One token of the regex fragment used by the search query: the
MongoDB `$regex` pattern is the raw query string, in which `.` is the
any-character wildcard; every other character of the queries this
development evaluates is a literal. -/
inductive RTok where
  | lit (c : Char)
  | dot
deriving Repr, DecidableEq

/-- Read the query string as a pattern of this regex fragment. -/
def parseRegexQ (s : String) : List RTok :=
  s.data.map (fun c => if c = '.' then RTok.dot else RTok.lit c)

/-- One pattern token against one character, case-insensitively
(the query runs with `$options: "i"`). -/
def tokMatches : RTok → Char → Bool
  | RTok.dot, _ => true
  | RTok.lit l, c => charIEq l c

/-- The pattern matches at the start of the character list. -/
def matchFrom : List RTok → List Char → Bool
  | [], _ => true
  | _ :: _, [] => false
  | t :: ts, c :: cs => tokMatches t c && matchFrom ts cs

/-- The pattern matches at some position (MongoDB `$regex` is unanchored). -/
def matchAnywhere (p : List RTok) : List Char → Bool
  | [] => matchFrom p []
  | c :: cs => matchFrom p (c :: cs) || matchAnywhere p cs

/-- `{"field": {"$regex": q, "$options": "i"}}` against one string field. -/
def regexTest (q field : String) : Bool :=
  matchAnywhere (parseRegexQ q) field.data

/-- The `$or` filter of `search_topics` (server.py line 241): the regex
against title, description, any tag (array-field semantics), or content. -/
def topicRegexMatch (q : String) (t : Topic) : Bool :=
  regexTest q t.title || regexTest q t.description ||
    t.tags.any (fun tag => regexTest q tag) || regexTest q t.content

/-- `search_topics` (server.py lines 235-244): empty result for a falsy
or length-<2 query, otherwise the stored topics matching the regex
filter, capped at 50 by `to_list(50)`. -/
def search_topics (db : DB) (q : String) : List Topic :=
  if q = "" ∨ q.length < 2 then []
  else (db.topics.filter (topicRegexMatch q)).take 50

/-- Spec-side field test for C9: `q` occurs as a case-insensitive
substring of `field` (no regex interpretation of `q`). -/
def substrTest (q field : String) : Bool :=
  subAnywhere q.data field.data

/-- Spec-side topic test for C9: case-insensitive substring match across
title, description, any tag, or content. -/
def topicSubstrMatch (q : String) (t : Topic) : Bool :=
  substrTest q t.title || substrTest q t.description ||
    t.tags.any (fun tag => substrTest q tag) || substrTest q t.content

/-- Characters with a special meaning in the `$regex` (PCRE) pattern
language; a query avoiding all of them is matched purely literally. -/
def regexMetaChars : List Char :=
  ['.', '^', '$', '*', '+', '?', '(', ')', '[', ']', '|', '\\',
   Char.ofNat 123, Char.ofNat 125]

/-- The query contains no regex metacharacter. -/
def regexMetaFree (q : String) : Bool :=
  q.data.all (fun c => !(regexMetaChars.contains c))

/-- `add_bookmark` (server.py lines 248-264), after the auth guard:
return the existing bookmark for `(user_id, topic_id)` if any, otherwise
insert and return a fresh one (`uuidHex` stands for
`uuid.uuid4().hex[:12]`). -/
def add_bookmark (db : DB) (user : User) (topic_id : String) (uuidHex : String) (now : Int) :
    DB × Bookmark :=
  match db.bookmarks.find? (fun b => b.user_id == user.user_id && b.topic_id == topic_id) with
  | some existing => (db, existing)
  | none =>
    let bm : Bookmark := { bookmark_id := "bm_" ++ uuidHex, user_id := user.user_id,
                           topic_id := topic_id, created_at := now }
    ({ db with bookmarks := db.bookmarks ++ [bm] }, bm)

/-- `remove_bookmark` (server.py lines 266-270), after the auth guard:
`delete_one` removes the first bookmark matching `(user_id, topic_id)`
if any; the fixed message is always returned. -/
def remove_bookmark (db : DB) (user : User) (topic_id : String) : DB × String :=
  ({ db with bookmarks :=
      db.bookmarks.eraseP (fun b => b.user_id == user.user_id && b.topic_id == topic_id) },
   "Bookmark removed")

/-- One element of the `get_bookmarks` response: the bookmark document
with its `topic` enrichment (`None` when the topic no longer exists). -/
structure EnrichedBookmark where
  bookmark : Bookmark
  topic : Option Topic
deriving Repr, DecidableEq

/-- `get_bookmarks` (server.py lines 272-281), after the auth guard: the
user's bookmarks, capped at 200 by `to_list(200)`, each enriched with
`db.topics.find_one` on its `topic_id`. -/
def get_bookmarks (db : DB) (user : User) : List EnrichedBookmark :=
  ((db.bookmarks.filter (fun b => b.user_id == user.user_id)).take 200).map
    (fun bm => { bookmark := bm,
                 topic := db.topics.find? (fun t => t.topic_id == bm.topic_id) })

/-- The `POST /bookmarks` route: `require_auth`, then the handler body. -/
def add_bookmark_route (db : DB) (now : Int) (req : Request) (topic_id uuidHex : String) :
    Except PyErr (DB × Bookmark) :=
  match require_auth db now req with
  | Except.error e => Except.error e
  | Except.ok user => Except.ok (add_bookmark db user topic_id uuidHex now)

/-- The `DELETE /bookmarks/{topic_id}` route: `require_auth`, then the
handler body. -/
def remove_bookmark_route (db : DB) (now : Int) (req : Request) (topic_id : String) :
    Except PyErr (DB × String) :=
  match require_auth db now req with
  | Except.error e => Except.error e
  | Except.ok user => Except.ok (remove_bookmark db user topic_id)

/-- The `GET /bookmarks` route: `require_auth`, then the handler body. -/
def get_bookmarks_route (db : DB) (now : Int) (req : Request) :
    Except PyErr (List EnrichedBookmark) :=
  match require_auth db now req with
  | Except.error e => Except.error e
  | Except.ok user => Except.ok (get_bookmarks db user)

/-- Whether an `Except` result is a success. -/
def exceptOk : Except PyErr SessionResponse → Bool
  | Except.ok _ => true
  | Except.error _ => false

/-- Data-model invariant of the spec: session tokens are unique. -/
def UniqueTokens (db : DB) : Prop :=
  db.user_sessions.Pairwise (fun a b => a.session_token ≠ b.session_token)

/-- Data-model invariant of the spec: user ids are unique and stable. -/
def UniqueUserIds (db : DB) : Prop :=
  db.users.Pairwise (fun a b => a.user_id ≠ b.user_id)

/-- Number of stored bookmarks for one `(user_id, topic_id)` pair. -/
def bookmarkKeyCount (db : DB) (uid tid : String) : Nat :=
  (db.bookmarks.filter (fun b => b.user_id == uid && b.topic_id == tid)).length

/-- Data-model invariant of the spec: at most one bookmark per
`(user_id, topic_id)` pair. -/
def BookmarkInv (db : DB) : Prop :=
  ∀ uid tid, bookmarkKeyCount db uid tid ≤ 1

/-! Concrete fixtures used by witnesses and counterexamples. -/

/-- A stored user. -/
def alice : User := ⟨"u_alice", "alice@example.com", "Alice", "pic", 0⟩

/-- A stored, unexpired session for `alice` (UTC expiry, far in the future
of the `now` values used below). -/
def sessAlice : Session := ⟨"u_alice", "tokA", ⟨2000, some 0⟩, 0⟩

/-- The `t_cpr` topic (abridged seed data from server.py). -/
def cprTopic : Topic :=
  ⟨"t_cpr", "first-aid", "CPR - Cardiopulmonary Resuscitation",
   "Learn how to perform CPR to save lives.", "CPR steps: push hard and fast.",
   "activity", ["cpr", "heart", "emergency"]⟩

/-- A small concrete store. -/
def dbAuth : DB := ⟨[alice], [sessAlice], [], [cprTopic]⟩

/-- A request presenting `alice`'s token via the cookie. -/
def reqCookieA : Request := ⟨some "tokA", none⟩

/-- A request presenting `alice`'s token via the `Authorization` header only. -/
def reqBearerA : Request := ⟨none, some "Bearer tokA"⟩

/-- A request presenting no credential at all. -/
def reqEmpty : Request := ⟨none, none⟩

/-! Helper lemmas. -/

/-- With pairwise-distinct session tokens, `find_one` by token returns any
stored session bearing that token. -/
theorem find_session_of_mem_unique {l : List Session}
    (huniq : l.Pairwise (fun a b => a.session_token ≠ b.session_token))
    {s : Session} (hs : s ∈ l) {tok : String} (ht : s.session_token = tok) :
    l.find? (fun x => x.session_token == tok) = some s := by
  induction l with
  | nil => cases hs
  | cons a l ih =>
    rw [List.pairwise_cons] at huniq
    rcases List.mem_cons.mp hs with rfl | hmem
    · simp [List.find?, ht]
    · have hne : (a.session_token == tok) = false := by
        simp only [beq_eq_false_iff_ne, ne_eq]
        intro he
        exact huniq.1 s hmem (he.trans ht.symm)
      simp only [List.find?, hne]
      exact ih huniq.2 hmem

/-! Claim theorems. -/

/-- C1: `resolveSession` (`get_current_user`) returns the owning user
exactly when a session with the presented token is stored, its expiry
(a naive stored timestamp being treated as UTC) has not passed, and the
referenced user row exists; in every other case — no token, no matching
session, expired session, or orphaned session — it returns `none`,
never an error. -/
theorem C1_resolveSession_iff (db : DB) (now : Int) (req : Request) (u : User)
    (huniq : UniqueTokens db) :
    get_current_user db now req = some u ↔
      ∃ tok s, extractToken req = some tok ∧ s ∈ db.user_sessions ∧
        s.session_token = tok ∧ sessionExpired s now = false ∧
        db.users.find? (fun x => x.user_id == s.user_id) = some u := by
  unfold get_current_user
  constructor
  · intro h
    cases hx : extractToken req with
    | none => simp [hx] at h
    | some tok =>
      simp only [hx] at h
      cases hf : db.user_sessions.find? (fun s => s.session_token == tok) with
      | none => simp [hf] at h
      | some sd =>
        simp only [hf] at h
        cases he : sessionExpired sd now with
        | true => simp [he] at h
        | false =>
          simp only [he, Bool.false_eq_true, if_false] at h
          refine ⟨tok, sd, rfl, List.mem_of_find?_eq_some hf, ?_, he, h⟩
          have hp := List.find?_some hf
          simpa using hp
  · rintro ⟨tok, s, hx, hmem, htok, hexp, hu⟩
    simp only [hx, find_session_of_mem_unique huniq hmem htok, hexp,
      Bool.false_eq_true, if_false, hu]

/-- C1 witness: the characterization applied at a concrete store,
resolving `alice`'s cookie token. -/
theorem C1_witness :
    UniqueTokens dbAuth ∧ get_current_user dbAuth 1000 reqCookieA = some alice := by
  have huniq : UniqueTokens dbAuth := by unfold UniqueTokens; decide
  refine ⟨huniq, ?_⟩
  exact (C1_resolveSession_iff dbAuth 1000 reqCookieA alice huniq).mpr
    ⟨"tokA", sessAlice, by decide, by decide, rfl, by decide, by decide⟩

/-- C7: a guarded route rejects a request with no credential, with a token
matching no session, or with an expired token, always with the same
401 response `detail = "Not authenticated"`, never a crash; this holds
for the guard itself, `auth_me`, and the three bookmark routes. -/
theorem C7_guard_uniform_401 (db : DB) (now : Int) (req : Request) (tid hex : String)
    (h : extractToken req = none ∨
      (∃ tok, extractToken req = some tok ∧
        db.user_sessions.find? (fun s => s.session_token == tok) = none) ∨
      (∃ tok s, extractToken req = some tok ∧
        db.user_sessions.find? (fun x => x.session_token == tok) = some s ∧
        sessionExpired s now = true)) :
    require_auth db now req = Except.error (PyErr.http 401 "Not authenticated") ∧
    auth_me db now req = Except.error (PyErr.http 401 "Not authenticated") ∧
    add_bookmark_route db now req tid hex = Except.error (PyErr.http 401 "Not authenticated") ∧
    remove_bookmark_route db now req tid = Except.error (PyErr.http 401 "Not authenticated") ∧
    get_bookmarks_route db now req = Except.error (PyErr.http 401 "Not authenticated") := by
  have hnone : get_current_user db now req = none := by
    unfold get_current_user
    rcases h with hx | ⟨tok, hx, hf⟩ | ⟨tok, s, hx, hf, he⟩
    · simp [hx]
    · simp [hx, hf]
    · simp [hx, hf, he]
  refine ⟨?_, ?_, ?_, ?_, ?_⟩ <;>
    simp [require_auth, auth_me, add_bookmark_route, remove_bookmark_route,
      get_bookmarks_route, hnone]

/-- C7 witness: the uniform rejection applied at a concrete store to a
request with no credential. -/
theorem C7_witness :
    require_auth dbAuth 1000 reqEmpty = Except.error (PyErr.http 401 "Not authenticated") ∧
    auth_me dbAuth 1000 reqEmpty = Except.error (PyErr.http 401 "Not authenticated") ∧
    add_bookmark_route dbAuth 1000 reqEmpty "t_cpr" "beef" =
      Except.error (PyErr.http 401 "Not authenticated") ∧
    remove_bookmark_route dbAuth 1000 reqEmpty "t_cpr" =
      Except.error (PyErr.http 401 "Not authenticated") ∧
    get_bookmarks_route dbAuth 1000 reqEmpty =
      Except.error (PyErr.http 401 "Not authenticated") :=
  C7_guard_uniform_401 dbAuth 1000 reqEmpty "t_cpr" "beef" (Or.inl (by decide))

/-- A `filter` by `p` of a list whose matches number at most one is empty
after `eraseP p`. -/
theorem filter_eraseP_self {α : Type} {l : List α} {p : α → Bool}
    (h : (l.filter p).length ≤ 1) : (l.eraseP p).filter p = [] := by
  induction l with
  | nil => simp
  | cons a l ih =>
    cases ha : p a with
    | true =>
      rw [List.eraseP_cons_of_pos ha]
      have hlen : (l.filter p).length = 0 := by
        rw [List.filter_cons_of_pos ha] at h
        simpa using h
      rwa [List.length_eq_zero] at hlen
    | false =>
      rw [List.eraseP_cons_of_neg (by simp [ha]), List.filter_cons_of_neg (by simp [ha])]
      rw [List.filter_cons_of_neg (by simp [ha])] at h
      exact ih h

/-- C6: `removeBookmark` always reports success with the fixed message;
under the at-most-one-bookmark-per-pair invariant it leaves no bookmark
for `(user_id, topic_id)` behind; and when no matching record exists the
store is completely unchanged (idempotent deletion, no error). -/
theorem C6_removeBookmark (db : DB) (u : User) (tid : String) (hinv : BookmarkInv db) :
    (remove_bookmark db u tid).2 = "Bookmark removed" ∧
    bookmarkKeyCount (remove_bookmark db u tid).1 u.user_id tid = 0 ∧
    (db.bookmarks.find? (fun b => b.user_id == u.user_id && b.topic_id == tid) = none →
      (remove_bookmark db u tid).1 = db) := by
  refine ⟨rfl, ?_, ?_⟩
  · have h := hinv u.user_id tid
    unfold bookmarkKeyCount at h ⊢
    unfold remove_bookmark
    simp only []
    rw [filter_eraseP_self h]
    rfl
  · intro hf
    unfold remove_bookmark
    rw [List.eraseP_of_forall_not (by simpa using List.find?_eq_none.mp hf)]

/-- C6 witness: removing a bookmark that does not exist succeeds and
leaves the store unchanged. -/
theorem C6_witness :
    (remove_bookmark dbAuth alice "t_cpr").2 = "Bookmark removed" ∧
    (remove_bookmark dbAuth alice "t_cpr").1 = dbAuth := by
  have hinv : BookmarkInv dbAuth := by
    intro uid tid
    simp [bookmarkKeyCount, dbAuth]
  have h := C6_removeBookmark dbAuth alice "t_cpr" hinv
  exact ⟨h.1, h.2.2 (by decide)⟩

/-- C4: `addBookmark` is idempotent: with the per-pair uniqueness
invariant, two calls with the same `(user, topic)` return the same
record, the second call leaves the store untouched, exactly one bookmark
for the pair is stored afterwards, and the invariant is preserved. -/
theorem C4_addBookmark_idempotent (db : DB) (u : User) (tid h1 h2 : String) (n1 n2 : Int)
    (hinv : BookmarkInv db) :
    (add_bookmark (add_bookmark db u tid h1 n1).1 u tid h2 n2).2 =
      (add_bookmark db u tid h1 n1).2 ∧
    (add_bookmark (add_bookmark db u tid h1 n1).1 u tid h2 n2).1 =
      (add_bookmark db u tid h1 n1).1 ∧
    bookmarkKeyCount (add_bookmark db u tid h1 n1).1 u.user_id tid = 1 ∧
    BookmarkInv (add_bookmark db u tid h1 n1).1 := by
  cases hf : db.bookmarks.find? (fun b => b.user_id == u.user_id && b.topic_id == tid) with
  | some ex =>
    have h1eq : add_bookmark db u tid h1 n1 = (db, ex) := by
      unfold add_bookmark
      rw [hf]
    rw [h1eq]
    have hcnt : bookmarkKeyCount db u.user_id tid = 1 := by
      have hle := hinv u.user_id tid
      have hpex := List.find?_some hf
      have hmem : ex ∈ db.bookmarks.filter
          (fun b => b.user_id == u.user_id && b.topic_id == tid) :=
        List.mem_filter.mpr ⟨List.mem_of_find?_eq_some hf, hpex⟩
      have hpos : 0 < bookmarkKeyCount db u.user_id tid :=
        List.length_pos.mpr (List.ne_nil_of_mem hmem)
      omega
    refine ⟨?_, ?_, hcnt, hinv⟩
    · unfold add_bookmark
      rw [hf]
    · unfold add_bookmark
      rw [hf]
  | none =>
    have hnil : db.bookmarks.filter
        (fun b => b.user_id == u.user_id && b.topic_id == tid) = [] :=
      List.filter_eq_nil_iff.mpr (by simpa using List.find?_eq_none.mp hf)
    have h1eq : add_bookmark db u tid h1 n1 =
        ({ db with bookmarks := db.bookmarks ++
            [⟨"bm_" ++ h1, u.user_id, tid, n1⟩] }, ⟨"bm_" ++ h1, u.user_id, tid, n1⟩) := by
      unfold add_bookmark
      rw [hf]
    have hf2 : (db.bookmarks ++ [(⟨"bm_" ++ h1, u.user_id, tid, n1⟩ : Bookmark)]).find?
        (fun b => b.user_id == u.user_id && b.topic_id == tid) =
        some ⟨"bm_" ++ h1, u.user_id, tid, n1⟩ := by
      rw [List.find?_append, hf]
      simp [List.find?]
    rw [h1eq]
    refine ⟨?_, ?_, ?_, ?_⟩
    · unfold add_bookmark
      simp only [hf2]
    · unfold add_bookmark
      simp only [hf2]
    · unfold bookmarkKeyCount
      simp only [List.filter_append, hnil]
      simp [List.filter]
    · intro uid' tid'
      unfold bookmarkKeyCount
      simp only [List.filter_append, List.length_append]
      cases hp : ((⟨"bm_" ++ h1, u.user_id, tid, n1⟩ : Bookmark).user_id == uid' &&
          (⟨"bm_" ++ h1, u.user_id, tid, n1⟩ : Bookmark).topic_id == tid') with
      | false =>
        have := hinv uid' tid'
        unfold bookmarkKeyCount at this
        simp [List.filter, hp]
        omega
      | true =>
        have hp' := hp
        simp only [Bool.and_eq_true, beq_iff_eq] at hp'
        obtain ⟨h1', h2'⟩ := hp'
        subst h1'
        subst h2'
        simp [List.filter, hp, hnil]

/-- C4 witness: the idempotence applied at a concrete store with no prior
bookmark for the pair. -/
theorem C4_witness :
    bookmarkKeyCount (add_bookmark dbAuth alice "t_cpr" "aaa" 1).1 alice.user_id "t_cpr" = 1 := by
  have hinv : BookmarkInv dbAuth := by
    intro uid tid
    simp [bookmarkKeyCount, dbAuth]
  exact (C4_addBookmark_idempotent dbAuth alice "t_cpr" "aaa" "bbb" 1 2 hinv).2.2.1

/-- A fixed identity-exchange payload used by witnesses. -/
def exData : ExchangeData := ⟨"bob@example.com", "Bob", none, "tokB"⟩

/-- Spec-side predicate for C3: the handler outcome is an HTTP 401. -/
def isHttp401 : Except PyErr SessionResponse → Bool
  | Except.error (PyErr.http 401 _) => true
  | _ => false

/-- C3 counterexample: a transport-level failure of the identity-exchange
call (the claim's "network/quota failure") is not caught by
`create_session`: the exception propagates out of the handler instead of
becoming the claimed 401 `AuthenticationFailed` rejection. -/
theorem C3_counterexample :
    (create_session dbAuth (ExchangeOutcome.transportError "ConnectError") 5 "beef").2 =
      Except.error (PyErr.uncaught "ConnectError") ∧
    isHttp401
      (create_session dbAuth (ExchangeOutcome.transportError "ConnectError") 5 "beef").2 =
      false :=
  ⟨rfl, rfl⟩

/-- C3 (amended): a non-success response from the identity-exchange
collaborator fails with the 401 "Invalid session" rejection; a
transport-level failure of the call is not caught and propagates out of
the handler unchanged. -/
theorem C3_exchange_failure (db : DB) (now : Int) (hex : String) (status : Nat)
    (data : ExchangeData) (msg : String) (h : status ≠ 200) :
    (create_session db (ExchangeOutcome.response status data) now hex).2 =
      Except.error (PyErr.http 401 "Invalid session") ∧
    (create_session db (ExchangeOutcome.transportError msg) now hex).2 =
      Except.error (PyErr.uncaught msg) := by
  constructor
  · simp [create_session, h]
  · rfl

/-- C3 witness: the amended behavior at a concrete rejected exchange. -/
theorem C3_witness :
    (create_session dbAuth (ExchangeOutcome.response 403 exData) 5 "beef").2 =
      Except.error (PyErr.http 401 "Invalid session") ∧
    (create_session dbAuth (ExchangeOutcome.transportError "Timeout") 5 "beef").2 =
      Except.error (PyErr.uncaught "Timeout") :=
  C3_exchange_failure dbAuth 5 "beef" 403 exData "Timeout" (by decide)

/-- C10: whenever `create_session` fails — a non-success exchange response
or a propagated transport failure — the store is left unchanged: no user
is created or updated and no session row is inserted. -/
theorem C10_atomic_on_failure (db : DB) (outcome : ExchangeOutcome) (now : Int) (hex : String)
    (h : exceptOk (create_session db outcome now hex).2 = false) :
    (create_session db outcome now hex).1 = db := by
  cases outcome with
  | transportError msg => rfl
  | response status data =>
    by_cases hs : status = 200
    · exfalso
      subst hs
      simp [create_session, exceptOk] at h
    · simp [create_session, hs]

/-- C10 witness: the store is untouched by a rejected exchange. -/
theorem C10_witness :
    (create_session dbAuth (ExchangeOutcome.response 500 exData) 5 "beef").1 = dbAuth :=
  C10_atomic_on_failure dbAuth (ExchangeOutcome.response 500 exData) 5 "beef" (by decide)

/-- C8 counterexample: a token presented only via the
`Authorization: Bearer` header — a presentation the claim includes, and
the one `extractToken` accepts on guarded routes — is ignored by
`logout`: the matching session row survives. -/
theorem C8_counterexample :
    extractToken reqBearerA = some "tokA" ∧
    sessAlice.session_token = "tokA" ∧
    sessAlice ∈ dbAuth.user_sessions ∧
    (logout dbAuth reqBearerA).1.user_sessions = [sessAlice] := by
  decide

/-- C8 (amended): `logout` reads the token only from the `session_token`
cookie (a Bearer-header token is ignored); when a non-empty cookie token
is present it deletes all session rows bearing it; it always clears the
cookie and succeeds with the fixed message, and with no cookie token the
store is completely unchanged. -/
theorem C8_endSession (db : DB) (req : Request) :
    (logout db req).2.message = "Logged out" ∧
    (logout db req).2.deleted_cookie = ⟨"session_token", "/"⟩ ∧
    (logout db req).1.users = db.users ∧
    (logout db req).1.bookmarks = db.bookmarks ∧
    (logout db req).1.topics = db.topics ∧
    (∀ tok, req.cookie_session_token = some tok → tok ≠ "" →
      (logout db req).1.user_sessions =
        db.user_sessions.filter (fun s => s.session_token != tok) ∧
      (logout db req).1.user_sessions.filter (fun s => s.session_token == tok) = []) ∧
    (req.cookie_session_token.getD "" = "" → (logout db req).1 = db) := by
  refine ⟨rfl, rfl, ?_, ?_, ?_, ?_, ?_⟩
  · unfold logout
    by_cases h : req.cookie_session_token.getD "" = "" <;> simp [h]
  · unfold logout
    by_cases h : req.cookie_session_token.getD "" = "" <;> simp [h]
  · unfold logout
    by_cases h : req.cookie_session_token.getD "" = "" <;> simp [h]
  · intro tok htok hne
    have hdb1 : (logout db req).1 =
        { db with user_sessions := db.user_sessions.filter (fun s => s.session_token != tok) } := by
      unfold logout
      rw [htok]
      simp [hne]
    refine ⟨by rw [hdb1], ?_⟩
    rw [hdb1]
    rw [List.filter_eq_nil_iff]
    intro s hs
    have hmem := (List.mem_filter.mp hs).2
    simp only [bne_iff_ne, ne_eq] at hmem
    simp [hmem]
  · intro h
    unfold logout
    simp [h]

/-- C8 witness: the amended behavior at a concrete cookie logout. -/
theorem C8_witness :
    (logout dbAuth reqCookieA).1.user_sessions = [] ∧
    (logout dbAuth reqCookieA).2.message = "Logged out" := by
  have h := C8_endSession dbAuth reqCookieA
  have h2 := (h.2.2.2.2.2.1 "tokA" rfl (by decide)).1
  constructor
  · rw [h2]
    decide
  · exact h.1

/-- `update_one` by email preserves every user's identity key:
`user_id`, `email` and `created_at` are untouched. -/
theorem updateFirstUser_map_key (l : List User) (em n p : String) :
    (updateFirstUser l em n p).map (fun u => (u.user_id, u.email, u.created_at)) =
      l.map (fun u => (u.user_id, u.email, u.created_at)) := by
  induction l with
  | nil => rfl
  | cons a l ih =>
    cases ha : (a.email == em) with
    | true => simp [updateFirstUser, ha]
    | false => simp [updateFirstUser, ha, ih]

/-- With pairwise-distinct user ids, looking up the updated user by id
after `update_one` by email returns exactly the first email match with
`name` and `picture` overwritten. -/
theorem updateFirstUser_find_id {l : List User} {em : String} {ex : User}
    (hids : l.Pairwise (fun a b => a.user_id ≠ b.user_id))
    (hf : l.find? (fun u => u.email == em) = some ex) (n p : String) :
    (updateFirstUser l em n p).find? (fun u => u.user_id == ex.user_id) =
      some { ex with name := n, picture := p } := by
  induction l with
  | nil => cases hf
  | cons a l ih =>
    rw [List.pairwise_cons] at hids
    cases ha : (a.email == em) with
    | true =>
      have hex : ex = a := by
        simp only [List.find?, ha] at hf
        exact (Option.some.inj hf).symm
      subst hex
      simp [updateFirstUser, ha, List.find?]
    | false =>
      simp only [List.find?, ha] at hf
      have hmem := List.mem_of_find?_eq_some hf
      have hne : (a.user_id == ex.user_id) = false := by
        simp only [beq_eq_false_iff_ne, ne_eq]
        exact hids.1 ex hmem
      simp only [updateFirstUser, ha, Bool.false_eq_true, if_false, List.find?, hne]
      exact ih hids.2 hf

/-- With pairwise-distinct user ids, `update_one` by email leaves every
user other than the updated one completely unchanged. -/
theorem updateFirstUser_filter_ne {l : List User} {em : String} {ex : User}
    (hids : l.Pairwise (fun a b => a.user_id ≠ b.user_id))
    (hf : l.find? (fun u => u.email == em) = some ex) (n p : String) :
    (updateFirstUser l em n p).filter (fun u => u.user_id != ex.user_id) =
      l.filter (fun u => u.user_id != ex.user_id) := by
  induction l with
  | nil => rfl
  | cons a l ih =>
    rw [List.pairwise_cons] at hids
    cases ha : (a.email == em) with
    | true =>
      have hex : ex = a := by
        simp only [List.find?, ha] at hf
        exact (Option.some.inj hf).symm
      subst hex
      simp [updateFirstUser, ha, List.filter]
    | false =>
      simp only [List.find?, ha] at hf
      have hmem := List.mem_of_find?_eq_some hf
      have hne : (a.user_id != ex.user_id) = true := by
        simp only [bne_iff_ne, ne_eq]
        exact hids.1 ex hmem
      simp [updateFirstUser, ha, List.filter, hne, ih hids.2 hf]

/-- C2: on a successful identity exchange, `create_session` looks the
user up by email — creating one with the freshly generated (assumed
unique) id when absent, else overwriting only `name`/`picture` of the
existing row while keeping `user_id`, `email` and `created_at`, and
touching no other user — inserts exactly one new session for that
`user_id` expiring at `now + 7 days`, and returns the user record plus
the raw session token in the body and in the cookie. -/
theorem C2_establishSession (db : DB) (data : ExchangeData) (now : Int) (hex : String)
    (hids : UniqueUserIds db)
    (hfresh : ∀ u ∈ db.users, u.user_id ≠ "user_" ++ hex) :
    ∃ uid body,
      (create_session db (ExchangeOutcome.response 200 data) now hex).2 = Except.ok body ∧
      (create_session db (ExchangeOutcome.response 200 data) now hex).1.user_sessions =
        db.user_sessions ++ [⟨uid, data.session_token, ⟨now + sevenDays, some 0⟩, now⟩] ∧
      (db.users.find? (fun u => u.email == data.email) = none →
        uid = "user_" ++ hex ∧ (∀ u ∈ db.users, u.user_id ≠ uid) ∧
        (create_session db (ExchangeOutcome.response 200 data) now hex).1.users =
          db.users ++ [⟨uid, data.email, data.name, data.picture.getD "", now⟩]) ∧
      (∀ ex, db.users.find? (fun u => u.email == data.email) = some ex →
        uid = ex.user_id ∧
        (create_session db (ExchangeOutcome.response 200 data) now hex).1.users.map
            (fun u => (u.user_id, u.email, u.created_at)) =
          db.users.map (fun u => (u.user_id, u.email, u.created_at))) ∧
      (create_session db (ExchangeOutcome.response 200 data) now hex).1.users.filter
          (fun u => u.user_id != uid) =
        db.users.filter (fun u => u.user_id != uid) ∧
      body.session_token = data.session_token ∧
      body.cookie = ⟨"session_token", data.session_token, "/", true, true, "none",
        7 * 24 * 60 * 60⟩ ∧
      ∃ ufin, body.user = some ufin ∧ ufin.user_id = uid ∧ ufin.email = data.email ∧
        ufin.name = data.name ∧ ufin.picture = data.picture.getD "" ∧
        ufin ∈ (create_session db (ExchangeOutcome.response 200 data) now hex).1.users := by
  cases hfe : db.users.find? (fun u => u.email == data.email) with
  | none =>
    have heval : create_session db (ExchangeOutcome.response 200 data) now hex =
        ({ db with
            users := db.users ++
              [⟨"user_" ++ hex, data.email, data.name, data.picture.getD "", now⟩],
            user_sessions := db.user_sessions ++
              [⟨"user_" ++ hex, data.session_token, ⟨now + sevenDays, some 0⟩, now⟩] },
         Except.ok
          ⟨(db.users ++
              [(⟨"user_" ++ hex, data.email, data.name, data.picture.getD "", now⟩ : User)]).find?
                (fun u => u.user_id == "user_" ++ hex),
           data.session_token,
           ⟨"session_token", data.session_token, "/", true, true, "none",
            7 * 24 * 60 * 60⟩⟩) := by
      unfold create_session
      simp [hfe]
    have hud : (db.users ++
        [(⟨"user_" ++ hex, data.email, data.name, data.picture.getD "", now⟩ : User)]).find?
          (fun u => u.user_id == "user_" ++ hex) =
        some ⟨"user_" ++ hex, data.email, data.name, data.picture.getD "", now⟩ := by
      rw [List.find?_append]
      have hn : db.users.find? (fun u => u.user_id == "user_" ++ hex) = none :=
        List.find?_eq_none.mpr (fun x hx => by simpa using hfresh x hx)
      rw [hn]
      simp [List.find?]
    refine ⟨"user_" ++ hex,
      ⟨some ⟨"user_" ++ hex, data.email, data.name, data.picture.getD "", now⟩,
       data.session_token,
       ⟨"session_token", data.session_token, "/", true, true, "none", 7 * 24 * 60 * 60⟩⟩,
      ?_, ?_, ?_, ?_, ?_, rfl, rfl, ?_⟩
    · rw [heval]
      simp [hud]
    · rw [heval]
    · intro hnone
      exact ⟨rfl, hfresh, by rw [heval]⟩
    · intro ex hex'
      cases hex'
    · rw [heval]
      simp only []
      rw [List.filter_append]
      have hbm : ([(⟨"user_" ++ hex, data.email, data.name, data.picture.getD "", now⟩ :
          User)].filter (fun u => u.user_id != "user_" ++ hex)) = [] := by
        simp [List.filter]
      rw [hbm, List.append_nil]
    · refine ⟨⟨"user_" ++ hex, data.email, data.name, data.picture.getD "", now⟩,
        rfl, rfl, rfl, rfl, rfl, ?_⟩
      rw [heval]
      simp
  | some ex =>
    have hexmail : ex.email = data.email := by
      have hp := List.find?_some hfe
      simpa using hp
    have heval : create_session db (ExchangeOutcome.response 200 data) now hex =
        ({ db with
            users := updateFirstUser db.users data.email data.name (data.picture.getD ""),
            user_sessions := db.user_sessions ++
              [⟨ex.user_id, data.session_token, ⟨now + sevenDays, some 0⟩, now⟩] },
         Except.ok
          ⟨(updateFirstUser db.users data.email data.name (data.picture.getD "")).find?
              (fun u => u.user_id == ex.user_id),
           data.session_token,
           ⟨"session_token", data.session_token, "/", true, true, "none",
            7 * 24 * 60 * 60⟩⟩) := by
      unfold create_session
      simp [hfe]
    have hud := updateFirstUser_find_id hids hfe data.name (data.picture.getD "")
    refine ⟨ex.user_id,
      ⟨some { ex with name := data.name, picture := data.picture.getD "" },
       data.session_token,
       ⟨"session_token", data.session_token, "/", true, true, "none", 7 * 24 * 60 * 60⟩⟩,
      ?_, ?_, ?_, ?_, ?_, rfl, rfl, ?_⟩
    · rw [heval]
      simp [hud]
    · rw [heval]
    · intro hnone
      cases hnone
    · intro ex' hex'
      cases hex'
      refine ⟨rfl, ?_⟩
      rw [heval]
      exact updateFirstUser_map_key db.users data.email data.name (data.picture.getD "")
    · rw [heval]
      exact updateFirstUser_filter_ne hids hfe data.name (data.picture.getD "")
    · refine ⟨{ ex with name := data.name, picture := data.picture.getD "" },
        rfl, rfl, hexmail, rfl, rfl, ?_⟩
      rw [heval]
      exact List.mem_of_find?_eq_some hud

/-- The empty store. -/
def dbEmpty : DB := ⟨[], [], [], []⟩

/-- C2 witness: a first login at a concrete empty store creates the
user and exactly one 7-day session. -/
theorem C2_witness :
    (create_session dbEmpty (ExchangeOutcome.response 200 exData) 100 "abcdef").1.user_sessions.length = 1 := by
  have h := C2_establishSession dbEmpty exData 100 "abcdef"
    (by unfold UniqueUserIds dbEmpty; decide) (by intro u hu; cases hu)
  obtain ⟨uid, body, _, hsess, _⟩ := h
  rw [hsess]
  rfl

/-- A query without `.` parses to a pattern of literals only. -/
theorem parseRegexQ_eq_lits {q : String} (h : ∀ c ∈ q.data, c ≠ '.') :
    parseRegexQ q = q.data.map RTok.lit := by
  unfold parseRegexQ
  exact List.map_congr_left (fun c hc => by simp [h c hc])

/-- A literal-only pattern matches at the start exactly like the
case-insensitive substring test. -/
theorem matchFrom_lits (p s : List Char) :
    matchFrom (p.map RTok.lit) s = subFrom p s := by
  induction p generalizing s with
  | nil => cases s <;> rfl
  | cons a p ih =>
    cases s with
    | nil => rfl
    | cons c s => simp [matchFrom, subFrom, tokMatches, ih]

/-- A literal-only pattern matches anywhere exactly like the
case-insensitive substring test. -/
theorem matchAnywhere_lits (p s : List Char) :
    matchAnywhere (p.map RTok.lit) s = subAnywhere p s := by
  induction s with
  | nil => simp [matchAnywhere, subAnywhere, matchFrom_lits]
  | cons c s ih => simp [matchAnywhere, subAnywhere, matchFrom_lits, ih]

/-- For a query free of regex metacharacters, the `$regex` field test
coincides with the case-insensitive substring test. -/
theorem regexTest_eq_substrTest {q : String} (h : regexMetaFree q = true) (field : String) :
    regexTest q field = substrTest q field := by
  have hdot : ∀ c ∈ q.data, c ≠ '.' := by
    intro c hc hceq
    have h2 := List.all_eq_true.mp h c hc
    rw [hceq] at h2
    exact absurd h2 (by decide)
  unfold regexTest substrTest
  rw [parseRegexQ_eq_lits hdot, matchAnywhere_lits]

/-- For a metacharacter-free query, the stored-topic `$or` filter
coincides with the spec-side substring filter. -/
theorem topicMatch_eq_of_metaFree {q : String} (h : regexMetaFree q = true) (t : Topic) :
    topicRegexMatch q t = topicSubstrMatch q t := by
  simp [topicRegexMatch, topicSubstrMatch, regexTest_eq_substrTest h]

/-- `subFrom` really is the case-insensitive starts-with relation:
it holds exactly when the lowercased haystack extends the lowercased
pattern. -/
theorem subFrom_iff (pat hay : List Char) :
    subFrom pat hay = true ↔
      ∃ suf, hay.map Char.toLower = pat.map Char.toLower ++ suf := by
  induction pat generalizing hay with
  | nil => simp [subFrom]
  | cons p ps ih =>
    cases hay with
    | nil =>
      simp [subFrom]
    | cons c cs =>
      simp only [subFrom, Bool.and_eq_true, charIEq, beq_iff_eq, ih, List.map_cons,
        List.cons_append, List.cons.injEq]
      constructor
      · rintro ⟨hpc, suf, hsuf⟩
        exact ⟨suf, hpc.symm, hsuf⟩
      · rintro ⟨suf, hpc, hsuf⟩
        exact ⟨hpc.symm, suf, hsuf⟩

/-- `subAnywhere` really is the case-insensitive substring relation:
it holds exactly when the lowercased pattern occurs inside the
lowercased haystack. -/
theorem subAnywhere_iff (pat hay : List Char) :
    subAnywhere pat hay = true ↔
      ∃ pre suf, hay.map Char.toLower = pre ++ pat.map Char.toLower ++ suf := by
  induction hay with
  | nil =>
    cases pat with
    | nil => simp [subAnywhere, subFrom]
    | cons p ps => simp [subAnywhere, subFrom]
  | cons c cs ih =>
    simp only [subAnywhere, Bool.or_eq_true, subFrom_iff, ih, List.map_cons]
    constructor
    · rintro (⟨suf, hsuf⟩ | ⟨pre, suf, hsuf⟩)
      · exact ⟨[], suf, by simp [hsuf]⟩
      · exact ⟨c.toLower :: pre, suf, by simp [hsuf]⟩
    · rintro ⟨pre, suf, hsuf⟩
      cases pre with
      | nil =>
        exact Or.inl ⟨suf, by simpa using hsuf⟩
      | cons p' pre' =>
        right
        refine ⟨pre', suf, ?_⟩
        rw [List.append_assoc]
        have h2 := List.cons.inj (by simpa using hsuf)
        exact h2.2

/-- C9 counterexample: the query is the `$regex` pattern, not a literal:
`"c.r"` (length ≥ 2) matches the `t_cpr` topic through the `.` wildcard
although it occurs in no field as a case-insensitive substring, so the
result set differs from the claimed substring semantics. -/
theorem C9_counterexample :
    ¬ ("c.r" = "" ∨ ("c.r").length < 2) ∧
    search_topics dbAuth "c.r" = [cprTopic] ∧
    dbAuth.topics.filter (topicSubstrMatch "c.r") = [] := by
  refine ⟨by decide, by decide, by decide⟩

/-- C9 (amended): an empty or length-<2 query returns an empty result
set (not an error); otherwise the result is the stored topics matching
the query as a case-insensitive unanchored regular expression over
title/description/tags/content, capped at 50 — which, for queries free
of regex metacharacters, coincides with case-insensitive substring
matching. -/
theorem C9_searchTopics (db : DB) (q : String) :
    ((q = "" ∨ q.length < 2) → search_topics db q = []) ∧
    (¬ (q = "" ∨ q.length < 2) →
      search_topics db q = (db.topics.filter (topicRegexMatch q)).take 50 ∧
      (search_topics db q).length ≤ 50 ∧
      (regexMetaFree q = true →
        search_topics db q = (db.topics.filter (topicSubstrMatch q)).take 50)) := by
  constructor
  · intro h
    unfold search_topics
    simp [h]
  · intro h
    have h1 : search_topics db q = (db.topics.filter (topicRegexMatch q)).take 50 := by
      unfold search_topics
      simp [h]
    refine ⟨h1, ?_, ?_⟩
    · rw [h1]
      exact List.length_take_le 50 _
    · intro hm
      rw [h1]
      congr 1
      exact List.filter_congr (fun t ht => topicMatch_eq_of_metaFree hm t)

/-- C9 witness: the spec's own examples — empty and length-1 queries are
empty, and "cpr" is matched by substring semantics and finds `t_cpr`. -/
theorem C9_witness :
    search_topics dbAuth "" = [] ∧
    search_topics dbAuth "a" = [] ∧
    search_topics dbAuth "cpr" = (dbAuth.topics.filter (topicSubstrMatch "cpr")).take 50 := by
  refine ⟨(C9_searchTopics dbAuth "").1 (Or.inl rfl),
          (C9_searchTopics dbAuth "a").1 (Or.inr (by decide)),
          ((C9_searchTopics dbAuth "cpr").2 (by decide)).2.2 (by decide)⟩

/-- Erasing the first element satisfying `p` cannot change the portion of
the list satisfying a predicate disjoint from `p`. -/
theorem filter_eraseP_of_disjoint {α : Type} {l : List α} {p q : α → Bool}
    (h : ∀ a, p a = true → q a = false) :
    (l.eraseP p).filter q = l.filter q := by
  induction l with
  | nil => rfl
  | cons a l ih =>
    cases hpa : p a with
    | true =>
      rw [List.eraseP_cons_of_pos hpa, List.filter_cons_of_neg (by simp [h a hpa])]
    | false =>
      rw [List.eraseP_cons_of_neg (by simp [hpa])]
      cases hqa : q a with
      | true => rw [List.filter_cons_of_pos hqa, List.filter_cons_of_pos hqa, ih]
      | false =>
        rw [List.filter_cons_of_neg (by simp [hqa]), List.filter_cons_of_neg (by simp [hqa]),
          ih]

/-- A bookmark owned by `alice`. -/
def bmCpr : Bookmark := ⟨"bm1", "u_alice", "t_cpr", 0⟩

/-- A concrete store with one bookmark. -/
def dbBook : DB := ⟨[alice], [sessAlice], [bmCpr], [cprTopic]⟩

/-- 201 bookmarks owned by `alice`, on 201 distinct topics. -/
def manyBookmarks : List Bookmark :=
  (List.range 201).map (fun i => ⟨"bm" ++ toString i, "u_alice", "t" ++ toString i, 0⟩)

/-- A store in which `alice` owns 201 bookmarks. -/
def db201 : DB := ⟨[alice], [], manyBookmarks, []⟩

set_option maxRecDepth 8000 in
/-- C5 counterexample: `get_bookmarks` truncates to the first 200 rows
(`to_list(200)`), so with 201 stored bookmarks it does not return
exactly the bookmarks owned by the user. -/
theorem C5_counterexample :
    (get_bookmarks db201 alice).length = 200 ∧
    (db201.bookmarks.filter (fun b => b.user_id == alice.user_id)).length = 201 := by
  constructor
  · decide
  · decide

/-- C5 (amended): `get_bookmarks` returns exactly the first up-to-200
bookmarks owned by the requesting user, each enriched with its topic
(`none` when the topic no longer exists, without failing), and neither
`remove_bookmark` nor `add_bookmark` ever touches a bookmark belonging
to a different user. -/
theorem C5_per_user_isolation (db : DB) (u : User) (tid hex : String) (now : Int) :
    get_bookmarks db u =
      ((db.bookmarks.filter (fun b => b.user_id == u.user_id)).take 200).map
        (fun bm => ⟨bm, db.topics.find? (fun t => t.topic_id == bm.topic_id)⟩) ∧
    (∀ e ∈ get_bookmarks db u, e.bookmark.user_id = u.user_id) ∧
    (∀ e ∈ get_bookmarks db u,
      (∀ t ∈ db.topics, t.topic_id ≠ e.bookmark.topic_id) → e.topic = none) ∧
    (remove_bookmark db u tid).1.bookmarks.filter (fun b => b.user_id != u.user_id) =
      db.bookmarks.filter (fun b => b.user_id != u.user_id) ∧
    (add_bookmark db u tid hex now).1.bookmarks.filter (fun b => b.user_id != u.user_id) =
      db.bookmarks.filter (fun b => b.user_id != u.user_id) := by
  refine ⟨rfl, ?_, ?_, ?_, ?_⟩
  · intro e he
    unfold get_bookmarks at he
    obtain ⟨bm, hbm, rfl⟩ := List.mem_map.mp he
    have h2 := List.mem_of_mem_take hbm
    have h3 := (List.mem_filter.mp h2).2
    simpa using h3
  · intro e he hnotop
    unfold get_bookmarks at he
    obtain ⟨bm, hbm, rfl⟩ := List.mem_map.mp he
    refine List.find?_eq_none.mpr ?_
    intro t ht
    simpa using hnotop t ht
  · unfold remove_bookmark
    exact filter_eraseP_of_disjoint
      (fun b hb => by
        simp only [Bool.and_eq_true, beq_iff_eq] at hb
        simp [hb.1])
  · cases hf : db.bookmarks.find? (fun b => b.user_id == u.user_id && b.topic_id == tid) with
    | some ex =>
      unfold add_bookmark
      rw [hf]
    | none =>
      unfold add_bookmark
      rw [hf]
      simp only [List.filter_append]
      have hbm : ([(⟨"bm_" ++ hex, u.user_id, tid, now⟩ : Bookmark)].filter
          (fun b => b.user_id != u.user_id)) = [] := by
        simp [List.filter]
      rw [hbm, List.append_nil]

/-- C5 witness: the amended listing applied at a concrete one-bookmark
store, with the topic enrichment present. -/
theorem C5_witness :
    get_bookmarks dbBook alice = [⟨bmCpr, some cprTopic⟩] := by
  rw [(C5_per_user_isolation dbBook alice "t_x" "beef" 0).1]
  decide

end KnowNest
